import Mathlib

/-!
Verification development for the ifm3d ROS camera nodelet
(`src/ifm3d_ros_driver/src/camera_nodelet.cpp`).

The C++ source is shallowly embedded: pure conversion functions become Lean
functions, the acquisition loop becomes a step function over an explicit
state, and the service handlers become functions from an exception oracle
(the outcome of the device/session call) to their transport result and
response.  C++ exceptions are modelled with `Except`; a `.error` value means
an exception escapes the function under consideration.  ROS log calls are
modelled as explicit log events returned next to the result.
-/

/-! ## Pixel formats (ifm3d::pixel_format, values from the ifm3d library) -/

/-- Pixel format code `ifm3d::pixel_format::FORMAT_8U`. -/
def FORMAT_8U : Nat := 0

/-- Pixel format code `ifm3d::pixel_format::FORMAT_8S`. -/
def FORMAT_8S : Nat := 1

/-- Pixel format code `ifm3d::pixel_format::FORMAT_16U`. -/
def FORMAT_16U : Nat := 2

/-- Pixel format code `ifm3d::pixel_format::FORMAT_16S`. -/
def FORMAT_16S : Nat := 3

/-- Pixel format code `ifm3d::pixel_format::FORMAT_32U` (reserved slot). -/
def FORMAT_32U : Nat := 4

/-- Pixel format code `ifm3d::pixel_format::FORMAT_32S`. -/
def FORMAT_32S : Nat := 5

/-- Pixel format code `ifm3d::pixel_format::FORMAT_32F`. -/
def FORMAT_32F : Nat := 6

/-- Pixel format code `ifm3d::pixel_format::FORMAT_64U` (reserved slot). -/
def FORMAT_64U : Nat := 7

/-- Pixel format code `ifm3d::pixel_format::FORMAT_64F`. -/
def FORMAT_64F : Nat := 8

/-- Pixel format code `ifm3d::pixel_format::FORMAT_16U2`. -/
def FORMAT_16U2 : Nat := 9

/-- Pixel format code `ifm3d::pixel_format::FORMAT_32F3`. -/
def FORMAT_32F3 : Nat := 10

/-- `max_pixel_format` from `ifm3d_to_ros_image` (camera_nodelet.cpp line 39):
`static_cast<std::size_t>(ifm3d::pixel_format::FORMAT_32F3)`. -/
def max_pixel_format : Nat := FORMAT_32F3

/-! ## Message headers and decoded sub-images -/

/-- A `std_msgs::Header`: a frame-of-reference identifier plus a timestamp
(seconds, modelled exactly as a rational). -/
structure Header where
  frame_id : String
  stamp : ℚ
deriving DecidableEq

/-- A decoded ifm3d sub-image (`ifm3d::Image`): dimensions, the pixel-format
code reported by `dataFormat()`, and the raw bytes.  `data = []` models
`image.begin<std::uint8_t>() == image.end<std::uint8_t>()`. -/
structure Ifm3dImage where
  width : Nat
  height : Nat
  dataFormat : Nat
  data : List Nat
deriving DecidableEq

/-- A `sensor_msgs::Image` record. -/
structure RosImage where
  header : Header
  height : Nat
  width : Nat
  encoding : String
  is_bigendian : Nat
  step : Nat
  data : List Nat
deriving DecidableEq

/-- A `sensor_msgs::CompressedImage` record (no dimension fields exist on this
message type). -/
structure RosCompressedImage where
  header : Header
  format : String
  data : List Nat
deriving DecidableEq

/-- A `sensor_msgs::PointField` record. -/
structure PointField where
  name : String
  offset : Nat
  datatype : Nat
  count : Nat
deriving DecidableEq

/-- `sensor_msgs::PointField::FLOAT32`. -/
def FLOAT32 : Nat := 7

/-- A `sensor_msgs::PointCloud2` record. -/
structure RosPointCloud2 where
  header : Header
  height : Nat
  width : Nat
  is_bigendian : Bool
  fields : List PointField
  point_step : Nat
  row_step : Nat
  is_dense : Bool
  data : List Nat
deriving DecidableEq

/-- Log events emitted by the three conversion functions. -/
inductive ConvLog where
  | errPixelFormatOutOfRange
  | warnCantHandleEncoding
  | errInvalidCompressedFormat
  | errCloudFormat
deriving DecidableEq

/-- A C++ exception escaping a conversion function.  The only such exception
in this pipeline is the `std::invalid_argument` that
`sensor_msgs::image_encodings::bitDepth` raises on an encoding string it does
not know. -/
inductive CxxError where
  | invalidArgumentUnknownEncoding
deriving DecidableEq

/-- `sensor_msgs::image_encodings::bitDepth` (ROS sensor_msgs header, the
external helper called at camera_nodelet.cpp line 82): returns the per-channel
bit depth of a known encoding string and throws `std::invalid_argument` on any
other string (modelled as `none`). -/
def bitDepth : String → Option Nat
  | "yuv422" => some 8
  | "mono16" => some 16
  | "mono8" | "bgr8" | "rgb8" | "bgra8" | "rgba8"
  | "bayer_rggb8" | "bayer_bggr8" | "bayer_gbrg8" | "bayer_grbg8" => some 8
  | "bgr16" | "rgb16" | "bgra16" | "rgba16"
  | "bayer_rggb16" | "bayer_bggr16" | "bayer_gbrg16" | "bayer_grbg16" => some 16
  | "8UC1" | "8UC2" | "8UC3" | "8UC4"
  | "8SC1" | "8SC2" | "8SC3" | "8SC4" => some 8
  | "16UC1" | "16UC2" | "16UC3" | "16UC4"
  | "16SC1" | "16SC2" | "16SC3" | "16SC4" => some 16
  | "32SC1" | "32SC2" | "32SC3" | "32SC4"
  | "32FC1" | "32FC2" | "32FC3" | "32FC4" => some 32
  | "64FC1" | "64FC2" | "64FC3" | "64FC4" => some 64
  | _ => none

/-- The pixel-format lookup table `image_format_info` built at
camera_nodelet.cpp lines 40-60: an array of `max_pixel_format + 1 = 11`
encoding strings, indexed by pixel-format code.  The `sensor_msgs` constants
`TYPE_8UC1` etc. are the literal strings `"8UC1"` etc.; the two reserved
slots FORMAT_32U and FORMAT_64U are assigned the literal strings `"32UC1"`
and `"64UC1"` (lines 50 and 53). -/
def image_format_info : List String :=
  ["8UC1", "8SC1", "16UC1", "16SC1", "32UC1", "32SC1", "32FC1", "64UC1",
   "64FC1", "16UC2", "32FC3"]

/-- `ifm3d_to_ros_image` (camera_nodelet.cpp lines 35-94), the planar image
conversion.  Mirrors the source statement by statement:
an empty data range returns the header+dimension record before any format
check; `format >= max_pixel_format` logs an error and returns the same
record; otherwise the encoding is read from the table, the row stride is
`width * bitDepth(encoding) / 8` (an exception from `bitDepth` propagates),
`step * height` bytes are copied, and finally an empty encoding string is
replaced by `TYPE_8UC1` with a warning. -/
def ifm3d_to_ros_image (image : Ifm3dImage) (header : Header) :
    Except CxxError (RosImage × List ConvLog) :=
  let format := image.dataFormat
  let result : RosImage :=
    { header := header, height := image.height, width := image.width,
      is_bigendian := 0, encoding := "", step := 0, data := [] }
  if image.data.isEmpty then
    .ok (result, [])
  else if format ≥ max_pixel_format then
    .ok (result, [ConvLog.errPixelFormatOutOfRange])
  else
    let encoding := image_format_info.getD format ("")
    match bitDepth encoding with
    | none => .error CxxError.invalidArgumentUnknownEncoding
    | some bd =>
      let step := image.width * bd / 8
      let filled : RosImage :=
        { result with
          encoding := encoding,
          step := step,
          data := image.data.take (step * image.height) }
      if filled.encoding.isEmpty then
        .ok ({ filled with encoding := "8UC1" }, [ConvLog.warnCantHandleEncoding])
      else
        .ok (filled, [])

/-- `ifm3d_to_ros_compressed_image` (camera_nodelet.cpp lines 101-124): the
format is validated first (there is no empty-source check); a format other
than FORMAT_8S/FORMAT_8U logs an error and returns the header+format record;
otherwise `width * height` bytes are copied verbatim. -/
def ifm3d_to_ros_compressed_image (image : Ifm3dImage) (header : Header)
    (format : String) : RosCompressedImage × List ConvLog :=
  let result : RosCompressedImage := { header := header, format := format, data := [] }
  if image.dataFormat ≠ FORMAT_8S ∧ image.dataFormat ≠ FORMAT_8U then
    (result, [ConvLog.errInvalidCompressedFormat])
  else
    ({ result with data := image.data.take (image.width * image.height) }, [])

/-- `ifm3d_to_ros_cloud` (camera_nodelet.cpp lines 132-184): an empty data
range returns the header+dimension record; a format other than
FORMAT_32F3/FORMAT_32F logs an error and returns the same record; otherwise
the fixed x/y/z FLOAT32 field layout is built, `point_step` is
`fields.size() * sizeof(float)`, `row_step = point_step * width`,
`row_step * height` bytes are copied and the cloud is marked dense. -/
def ifm3d_to_ros_cloud (image : Ifm3dImage) (header : Header) :
    RosPointCloud2 × List ConvLog :=
  let result : RosPointCloud2 :=
    { header := header, height := image.height, width := image.width,
      is_bigendian := false, fields := [], point_step := 0, row_step := 0,
      is_dense := false, data := [] }
  if image.data.isEmpty then
    (result, [])
  else if image.dataFormat ≠ FORMAT_32F3 ∧ image.dataFormat ≠ FORMAT_32F then
    (result, [ConvLog.errCloudFormat])
  else
    let fields : List PointField :=
      [{ name := "x", offset := 0, datatype := FLOAT32, count := 1 },
       { name := "y", offset := 4, datatype := FLOAT32, count := 1 },
       { name := "z", offset := 8, datatype := FLOAT32, count := 1 }]
    let point_step := fields.length * 4
    let row_step := point_step * image.width
    let filled : RosPointCloud2 :=
      { result with
        fields := fields,
        point_step := point_step,
        row_step := row_step,
        is_dense := true,
        data := image.data.take (row_step * image.height) }
    (filled, [])

/-- A concrete header used by the concrete-input theorems below. -/
def hdr0 : Header := { frame_id := "camera_optical_link", stamp := 0 }

/-- Claim C1: for every decoded sub-image whose pixel-format code is one of
the supported formats and whose data range is non-empty, planar conversion
returns the documented encoding and stride, and only codes outside the
table's range take the error path.  The code refutes this at FORMAT_32F3
(code 10): the table entry `image_format_info[10] = "32FC3"` is initialized,
yet the range check `format >= max_pixel_format` (with `max_pixel_format =
10`) rejects code 10, logs "Pixel format out of range (10 >= 10)" and
returns the empty record — the 3-channel 32-bit float entry is dead code. -/
theorem planar_32f3_rejected_bug :
    image_format_info.getD FORMAT_32F3 ("") = "32FC3" ∧
    ifm3d_to_ros_image
        { width := 1, height := 1, dataFormat := FORMAT_32F3,
          data := List.replicate 12 0 } hdr0 =
      .ok ({ header := hdr0, height := 1, width := 1, is_bigendian := 0,
             encoding := "", step := 0, data := [] },
           [ConvLog.errPixelFormatOutOfRange]) :=
  ⟨rfl, rfl⟩

/-- Claim C6: for the two reserved pixel formats (FORMAT_32U and FORMAT_64U)
the claim says planar conversion of a non-empty source falls back to the
default 8-bit-unsigned tag and logs a warning.  The code refutes this: the
table assigns the non-empty literal tags "32UC1" and "64UC1" to those slots
(so the empty-encoding fallback branch is unreachable — every table entry is
non-empty), and the stride helper `bitDepth` throws on those two unknown
tags, so the exception escapes the conversion and no record is returned at
all. -/
theorem reserved_formats_bug :
    image_format_info.getD FORMAT_32U ("") = "32UC1" ∧
    image_format_info.getD FORMAT_64U ("") = "64UC1" ∧
    image_format_info.all (fun s => !s.isEmpty) = true ∧
    bitDepth ("32UC1") = none ∧
    bitDepth ("64UC1") = none ∧
    ifm3d_to_ros_image
        { width := 1, height := 1, dataFormat := FORMAT_32U,
          data := [0, 0, 0, 0] } hdr0 =
      .error CxxError.invalidArgumentUnknownEncoding ∧
    ifm3d_to_ros_image
        { width := 1, height := 1, dataFormat := FORMAT_64U,
          data := [0, 0, 0, 0, 0, 0, 0, 0] } hdr0 =
      .error CxxError.invalidArgumentUnknownEncoding :=
  ⟨rfl, rfl, rfl, rfl, rfl, rfl, rfl⟩

/-- Claim C3: point-cloud conversion of a non-empty 3-channel-float (or plain
float) source of width W and height H yields exactly the three FLOAT32
fields x/y/z at offsets 0/4/8, point step 12, row step 12·W, payload length
12·W·H and the dense flag; any other format on a non-empty source logs an
error and returns the empty record with header and dimensions only. -/
theorem cloud_conversion_spec : ∀ (img : Ifm3dImage) (hdr : Header),
    img.data ≠ [] →
    (((img.dataFormat = FORMAT_32F3 ∨ img.dataFormat = FORMAT_32F) →
        img.data.length = 12 * img.width * img.height →
        (ifm3d_to_ros_cloud img hdr).1.fields =
          [{ name := "x", offset := 0, datatype := FLOAT32, count := 1 },
           { name := "y", offset := 4, datatype := FLOAT32, count := 1 },
           { name := "z", offset := 8, datatype := FLOAT32, count := 1 }] ∧
        (ifm3d_to_ros_cloud img hdr).1.point_step = 12 ∧
        (ifm3d_to_ros_cloud img hdr).1.row_step = 12 * img.width ∧
        (ifm3d_to_ros_cloud img hdr).1.data.length =
          12 * img.width * img.height ∧
        (ifm3d_to_ros_cloud img hdr).1.is_dense = true ∧
        (ifm3d_to_ros_cloud img hdr).1.header = hdr ∧
        (ifm3d_to_ros_cloud img hdr).2 = []) ∧
     ((img.dataFormat ≠ FORMAT_32F3 ∧ img.dataFormat ≠ FORMAT_32F) →
        ifm3d_to_ros_cloud img hdr =
          ({ header := hdr, height := img.height, width := img.width,
             is_bigendian := false, fields := [], point_step := 0,
             row_step := 0, is_dense := false, data := [] },
           [ConvLog.errCloudFormat]))) := by
  intro img hdr hne
  have hempty : img.data.isEmpty = false := by
    cases h : img.data with
    | nil => exact absurd h hne
    | cons a l => rfl
  have hemptyP : ¬(img.data.isEmpty = true) := by simp [hempty]
  constructor
  · intro hf hlen
    have hcond : ¬(img.dataFormat ≠ FORMAT_32F3 ∧ img.dataFormat ≠ FORMAT_32F) := by
      rcases hf with hf | hf <;> simp [hf]
    unfold ifm3d_to_ros_cloud
    rw [if_neg hemptyP, if_neg hcond]
    refine ⟨rfl, rfl, rfl, ?_, rfl, rfl, rfl⟩
    simp [List.length_take, hlen]
  · intro hcond
    unfold ifm3d_to_ros_cloud
    rw [if_neg hemptyP, if_pos hcond]

/-- Concrete 1-by-1 FORMAT_32F3 source used by the point-cloud witness. -/
def cloudImgW : Ifm3dImage :=
  { width := 1, height := 1, dataFormat := FORMAT_32F3,
    data := List.replicate 12 0 }

/-- Witness for `cloud_conversion_spec` at a concrete 1-by-1 source. -/
theorem cloud_conversion_spec_witness :
    (ifm3d_to_ros_cloud cloudImgW hdr0).1.fields =
      [{ name := "x", offset := 0, datatype := FLOAT32, count := 1 },
       { name := "y", offset := 4, datatype := FLOAT32, count := 1 },
       { name := "z", offset := 8, datatype := FLOAT32, count := 1 }] ∧
    (ifm3d_to_ros_cloud cloudImgW hdr0).1.point_step = 12 ∧
    (ifm3d_to_ros_cloud cloudImgW hdr0).1.row_step = 12 * cloudImgW.width ∧
    (ifm3d_to_ros_cloud cloudImgW hdr0).1.data.length =
      12 * cloudImgW.width * cloudImgW.height ∧
    (ifm3d_to_ros_cloud cloudImgW hdr0).1.is_dense = true ∧
    (ifm3d_to_ros_cloud cloudImgW hdr0).1.header = hdr0 ∧
    (ifm3d_to_ros_cloud cloudImgW hdr0).2 = [] :=
  (cloud_conversion_spec cloudImgW hdr0 (by decide)).1 (Or.inl rfl) (by decide)

/-- Claim C7 counterexample: the claim says every conversion function, given
a zero-length source, never takes a format-error path regardless of the
pixel-format tag; but the compressed-image conversion has no empty-source
check and validates the format first, so a zero-length source tagged
FORMAT_16U logs the invalid-format error. -/
theorem empty_source_counterexample :
    (ifm3d_to_ros_compressed_image
        { width := 0, height := 0, dataFormat := FORMAT_16U, data := [] }
        hdr0 ("jpeg")).2 = [ConvLog.errInvalidCompressedFormat] :=
  rfl

/-- Claim C7 (amended): on a zero-length source, the planar and point-cloud
conversions return a record carrying the header and the source dimensions
with an empty payload and never take a format-error path, for every
pixel-format tag; the compressed-image conversion returns the header+format
record with an empty payload, but validates the format first, so a
zero-length source with a tag other than FORMAT_8S/FORMAT_8U still logs the
format error (the compressed record carries no dimension fields). -/
theorem empty_source_amended : ∀ (img : Ifm3dImage) (h1 h2 h3 : Header)
    (fmt : String),
    img.data = [] →
    (ifm3d_to_ros_image img h1 =
        .ok ({ header := h1, height := img.height, width := img.width,
               is_bigendian := 0, encoding := "", step := 0, data := [] },
             []) ∧
     ifm3d_to_ros_cloud img h2 =
        ({ header := h2, height := img.height, width := img.width,
           is_bigendian := false, fields := [], point_step := 0,
           row_step := 0, is_dense := false, data := [] }, []) ∧
     ((img.dataFormat = FORMAT_8S ∨ img.dataFormat = FORMAT_8U) →
        ifm3d_to_ros_compressed_image img h3 fmt =
          ({ header := h3, format := fmt, data := [] }, [])) ∧
     ((img.dataFormat ≠ FORMAT_8S ∧ img.dataFormat ≠ FORMAT_8U) →
        ifm3d_to_ros_compressed_image img h3 fmt =
          ({ header := h3, format := fmt, data := [] },
           [ConvLog.errInvalidCompressedFormat]))) := by
  intro img h1 h2 h3 fmt hdata
  refine ⟨?_, ?_, ?_, ?_⟩
  · simp [ifm3d_to_ros_image, hdata]
  · simp [ifm3d_to_ros_cloud, hdata]
  · intro hf
    have hcond : ¬(img.dataFormat ≠ FORMAT_8S ∧ img.dataFormat ≠ FORMAT_8U) := by
      rcases hf with hf | hf <;> simp [hf]
    simp [ifm3d_to_ros_compressed_image, hcond, hdata]
  · intro hcond
    simp [ifm3d_to_ros_compressed_image, hcond]

/-- Witness for `empty_source_amended`: a zero-length FORMAT_16U source. -/
theorem empty_source_amended_witness :
    ifm3d_to_ros_image
        { width := 0, height := 0, dataFormat := FORMAT_16U, data := [] }
        hdr0 =
      .ok ({ header := hdr0, height := 0, width := 0, is_bigendian := 0,
             encoding := "", step := 0, data := [] }, []) ∧
    ifm3d_to_ros_compressed_image
        { width := 0, height := 0, dataFormat := FORMAT_16U, data := [] }
        hdr0 ("jpeg") =
      ({ header := hdr0, format := "jpeg", data := [] },
       [ConvLog.errInvalidCompressedFormat]) :=
  ⟨(empty_source_amended _ hdr0 hdr0 hdr0 ("jpeg") rfl).1,
   (empty_source_amended _ hdr0 hdr0 hdr0 ("jpeg") rfl).2.2.2 (by decide)⟩

/-! ## Session lifecycle: InitStructures (camera_nodelet.cpp lines 462-497)

The whole body of `InitStructures` runs under `std::lock_guard` on the shared
mutex, so the only states of the camera/framegrabber/image-buffer triple a
command handler can observe are the pre-state and the post-state of a call. -/

/-- A constructed `ifm3d::CameraBase` handle (records the constructor
arguments `camera_ip_`, `xmlrpc_port_`). -/
structure CamHandle where
  ip : String
  xmlrpc_port : Nat
deriving DecidableEq

/-- A constructed `ifm3d::FrameGrabber` handle (records the mask and data
port it is bound to). -/
structure FgHandle where
  mask : Nat
  pcic_port : Nat
deriving DecidableEq

/-- The session triple `(cam_, fg_, im_)` of shared pointers; `none` models a
reset (null) pointer. -/
structure Triple where
  cam : Option CamHandle
  fg : Option FgHandle
  im : Option Unit
deriving DecidableEq

/-- The all-null triple. -/
def emptyTriple : Triple := { cam := none, fg := none, im := none }

/-- The nodelet parameters consumed by `InitStructures`. -/
structure NodeletParams where
  camera_ip : String
  xmlrpc_port : Nat
  pcic_port : Nat
deriving DecidableEq

/-- Outcome oracle for the three collaborator constructions inside
`InitStructures`.  The device/session collaborator (the ifm3d library)
reports failures as `ifm3d::error_t` exceptions carrying a numeric code;
`some code` means the corresponding construction throws. -/
structure InitEnv where
  camErr : Option Int
  fgErr : Option Int
  imErr : Option Int
deriving DecidableEq

/-- `InitStructures(mask, pcic_port)` (lines 462-497): under the lock, resets
`im_`, `fg_`, `cam_` (in that order), then constructs a new camera handle, a
frame grabber bound to it with the given mask and the member `pcic_port_`
(the `pcic_port` argument is unused by the body), and a fresh image buffer.
Any `ifm3d::error_t` from a construction is caught; the catch block resets
all three pointers and the function returns false; otherwise it returns
true.  The returned triple is the post-state visible to the next lock
acquirer. -/
def InitStructures (p : NodeletParams) (t : Triple) (env : InitEnv)
    (mask pcic_port : Nat) : Triple × Bool :=
  match env.camErr with
  | some _ => (emptyTriple, false)
  | none =>
    match env.fgErr with
    | some _ => (emptyTriple, false)
    | none =>
      match env.imErr with
      | some _ => (emptyTriple, false)
      | none =>
        ({ cam := some { ip := p.camera_ip, xmlrpc_port := p.xmlrpc_port },
           fg := some { mask := mask, pcic_port := p.pcic_port },
           im := some () }, true)

/-- Claim C4: every call to `InitStructures` either returns true leaving all
three of the session handle, frame grabber and frame buffer freshly
constructed (with the frame grabber bound to the requested mask and the
configured data port), or returns false leaving all three null; no partially
constructed triple is ever the post-state, whatever the previous triple and
whichever collaborator construction fails.  All collaborator failures
(`ifm3d::error_t`) are caught, so the call never throws past its boundary;
the body holds the shared lock throughout, so pre- and post-state are the
only observable states. -/
theorem initStructures_all_or_nothing : ∀ (p : NodeletParams) (t : Triple)
    (env : InitEnv) (mask pcic_port : Nat),
    ((InitStructures p t env mask pcic_port).2 = true ∧
     (InitStructures p t env mask pcic_port).1 =
       { cam := some { ip := p.camera_ip, xmlrpc_port := p.xmlrpc_port },
         fg := some { mask := mask, pcic_port := p.pcic_port },
         im := some () }) ∨
    ((InitStructures p t env mask pcic_port).2 = false ∧
     (InitStructures p t env mask pcic_port).1 = emptyTriple) := by
  intro p t env mask pcic_port
  rcases env with ⟨camErr, fgErr, imErr⟩
  rcases camErr with _ | c
  · rcases fgErr with _ | c
    · rcases imErr with _ | c
      · exact Or.inl ⟨rfl, rfl⟩
      · exact Or.inr ⟨rfl, rfl⟩
    · exact Or.inr ⟨rfl, rfl⟩
  · exact Or.inr ⟨rfl, rfl⟩

/-! ## Command handlers (camera_nodelet.cpp lines 295-460)

Each handler is a ROS service callback: its Bool return value is the
transport result (returning false fails the service call at the transport
level, discarding the response).  The outcome of the guarded device/session
call is an exception oracle: `none` = success, `errorT` = `ifm3d::error_t`,
`stdExc` = any other `std::exception`, `unknownExc` = a non-std exception. -/

/-- The possible C++ exceptions from a device/session call. -/
inductive Exc where
  | errorT (code : Int) (what : String)
  | stdExc (what : String)
  | unknownExc
deriving DecidableEq

/-- Response of the `Dump` service. -/
structure DumpResponse where
  status : Int
  config : String
deriving DecidableEq

/-- `CameraNodelet::Dump` (lines 295-326): catches `ifm3d::error_t` (status =
its code), `std::exception` (status = -1) and anything else (status = -2);
always returns true to the transport. -/
def Dump (camJson : String) (env : Option Exc) : Bool × DumpResponse :=
  match env with
  | none => (true, { status := 0, config := camJson })
  | some (.errorT c _) => (true, { status := c, config := "" })
  | some (.stdExc _) => (true, { status := -1, config := "" })
  | some .unknownExc => (true, { status := -2, config := "" })

/-- Response of the `Config` service. -/
structure ConfigResponse where
  status : Int
  msg : String
deriving DecidableEq

/-- `CameraNodelet::Config` (lines 328-360): catches `ifm3d::error_t`
(status = its code, msg = its message), `std::exception` (status = -1) and
anything else (status = -2); always returns true to the transport. -/
def ConfigSrv (env : Option Exc) : Bool × ConfigResponse :=
  match env with
  | none => (true, { status := 0, msg := "OK" })
  | some (.errorT c w) => (true, { status := c, msg := w })
  | some (.stdExc w) => (true, { status := -1, msg := w })
  | some .unknownExc => (true, { status := -2, msg := "Unknown error in Config" })

/-- Response of the `Trigger` service. -/
structure TriggerResponse where
  status : Int
  msg : String
deriving DecidableEq

/-- The fixed message set by the `Trigger` handler. -/
def triggerMsg : String := "Software trigger is currently not implemented"

/-- `CameraNodelet::Trigger` (lines 362-379): only `ifm3d::error_t` is
caught (status = its code); any other exception escapes the handler
(modelled as `.error`).  On the non-escaping paths it returns true. -/
def TriggerSrv (env : Option Exc) : Except Exc (Bool × TriggerResponse) :=
  match env with
  | none => .ok (true, { status := 0, msg := triggerMsg })
  | some (.errorT c _) => .ok (true, { status := c, msg := triggerMsg })
  | some e => .error e

/-- Response of the `SoftOff`/`SoftOn` services. -/
structure SoftResponse where
  status : Int
  msg : String
deriving DecidableEq

/-- The mutable nodelet parameters the SoftOff/SoftOn handlers read and
write. -/
structure CmdParams where
  pcic_port : Nat
  assume_sw_triggered : Bool
  timeout_millis : Int
  timeout_tolerance_secs : ℚ
  soft_on_timeout_millis : Int
  soft_on_timeout_tolerance_secs : ℚ
deriving DecidableEq

/-- The JSON fragment `SoftOff` applies: ports/portN/state = IDLE. -/
def softOffJson (port_arg : Nat) : String :=
  "\x7b\"ports\":\x7b\"port" ++ toString port_arg ++
    "\": \x7b\"state\": \"IDLE\"\x7d\x7d\x7d"

/-- The JSON fragment `SoftOn` applies: ports/portN/state = RUN. -/
def softOnJson (port_arg : Nat) : String :=
  "\x7b\"ports\":\x7b\"port" ++ toString port_arg ++
    "\": \x7b\"state\": \"RUN\"\x7d\x7d\x7d"

/-- `CameraNodelet::SoftOff` (lines 383-412): computes
`port_arg = pcic_port % 50010`, applies the IDLE JSON fragment and then
switches the active timeout pair to the soft-ON values.  Only
`ifm3d::error_t` is caught, and in that case the handler returns FALSE to
the transport (failing the service call) with status = code, msg = what,
leaving the parameters unchanged; any other exception escapes.  On success
it returns true with status 0 and the fragment as message. -/
def SoftOff (p : CmdParams) (env : Option Exc) :
    Except Exc (Bool × SoftResponse × CmdParams) :=
  let port_arg := p.pcic_port % 50010
  match env with
  | none =>
    .ok (true, { status := 0, msg := softOffJson port_arg },
         { p with
           assume_sw_triggered := false,
           timeout_millis := p.soft_on_timeout_millis,
           timeout_tolerance_secs := p.soft_on_timeout_tolerance_secs })
  | some (.errorT c w) => .ok (false, { status := c, msg := w }, p)
  | some e => .error e

/-- `CameraNodelet::SoftOn` (lines 416-460): same structure as `SoftOff`
with the RUN JSON fragment. -/
def SoftOn (p : CmdParams) (env : Option Exc) :
    Except Exc (Bool × SoftResponse × CmdParams) :=
  let port_arg := p.pcic_port % 50010
  match env with
  | none =>
    .ok (true, { status := 0, msg := softOnJson port_arg },
         { p with
           assume_sw_triggered := false,
           timeout_millis := p.soft_on_timeout_millis,
           timeout_tolerance_secs := p.soft_on_timeout_tolerance_secs })
  | some (.errorT c w) => .ok (false, { status := c, msg := w }, p)
  | some e => .error e

/-- The status every fully-guarded handler reports for a given outcome:
0 on success, the device code for `ifm3d::error_t`, -1 for `std::exception`,
-2 for anything else. -/
def expectedStatus : Option Exc → Int
  | none => 0
  | some (.errorT c _) => c
  | some (.stdExc _) => -1
  | some .unknownExc => -2

/-- Whether an outcome is caught by a handler that only handles
`ifm3d::error_t` (success or device error). -/
def deviceCaughtOnly : Option Exc → Bool
  | none => true
  | some (.errorT _ _) => true
  | _ => false

/-- Whether the outcome is a device (`ifm3d::error_t`) error. -/
def isDeviceErr : Option Exc → Bool
  | some (.errorT _ _) => true
  | _ => false

/-- The transport result of a handler that may let an exception escape:
`some b` when the callback returns `b`, `none` when an exception escapes. -/
def transportOf {α : Type} : Except Exc (Bool × α) → Option Bool
  | .ok (b, _) => some b
  | .error _ => none

/-- A concrete parameter record for the handler counterexample. -/
def cmdParams0 : CmdParams :=
  { pcic_port := 50012, assume_sw_triggered := true, timeout_millis := 500,
    timeout_tolerance_secs := 5, soft_on_timeout_millis := 500,
    soft_on_timeout_tolerance_secs := 5 }

/-- Claim C5 counterexample: the claim says every command handler catches
every failure, maps generic errors to -1 and unknown ones to -2, and never
fails the calling transport.  But `SoftOff` on an `ifm3d::error_t` returns
false to the transport (failing the service call), and `Trigger` does not
catch a `std::exception` at all — it escapes the handler. -/
theorem handlers_counterexample :
    transportOf (SoftOff cmdParams0 (some (.errorT 7 ("device error")))) =
      some false ∧
    transportOf (TriggerSrv (some (.stdExc ("parse error")))) = none :=
  ⟨rfl, rfl⟩

/-- Claim C5 (amended): `Dump` and `Config` catch every failure, complete
the service call (transport result true) and report status 0 on success,
the device code on `ifm3d::error_t`, -1 on `std::exception` and -2 on an
unknown failure.  `Trigger` catches only `ifm3d::error_t` (status = its
code, transport true) and lets any other exception escape.  `SoftOff` and
`SoftOn` catch only `ifm3d::error_t` and in that case report status = code
and message but FAIL the calling transport (return false); any other
exception escapes them as well. -/
theorem handlers_amended : ∀ (camJson : String) (p : CmdParams)
    (env : Option Exc),
    ((Dump camJson env).1 = true ∧
     (Dump camJson env).2.status = expectedStatus env) ∧
    ((ConfigSrv env).1 = true ∧
     (ConfigSrv env).2.status = expectedStatus env) ∧
    (transportOf (TriggerSrv env) =
      (if deviceCaughtOnly env = true then some true else none)) ∧
    (transportOf (SoftOff p env) =
      (if deviceCaughtOnly env = true then some (!isDeviceErr env) else none)) ∧
    (transportOf (SoftOn p env) =
      (if deviceCaughtOnly env = true then some (!isDeviceErr env) else none)) := by
  intro camJson p env
  rcases env with _ | e
  · exact ⟨⟨rfl, rfl⟩, ⟨rfl, rfl⟩, rfl, rfl, rfl⟩
  · rcases e with ⟨c, w⟩ | w | _ <;>
      exact ⟨⟨rfl, rfl⟩, ⟨rfl, rfl⟩, rfl, rfl, rfl⟩

/-! ## The acquisition loop `CameraNodelet::Run` (camera_nodelet.cpp 518-728)

One iteration of the `while (ros::ok())` loop is a step function from the
loop-local state (the `got_uvec` latch, the `last_frame` clock, the
once-only time-sync notice flag, and the mask the frame grabber is currently
bound to) and a per-iteration environment (whether `AcquireFrame` succeeded,
the wall-clock readings taken by the iteration, the device-reported capture
stamp, the active staleness tolerance, and whether the RGB sub-image is
non-empty) to the next state plus the ordered list of observable events
(publishes, reinitializations, the notice log).  The unbounded
reinitialization retry loops are represented by a single `reinit` event:
they run until `InitStructures` succeeds. -/

/-- Schema bit `ifm3d::IMG_RDIS`. -/
def IMG_RDIS : Nat := 1

/-- Schema bit `ifm3d::IMG_AMP`. -/
def IMG_AMP : Nat := 2

/-- Schema bit `ifm3d::IMG_RAMP`. -/
def IMG_RAMP : Nat := 4

/-- Schema bit `ifm3d::IMG_CART`. -/
def IMG_CART : Nat := 8

/-- Schema bit `ifm3d::IMG_UVEC` (the minimal bootstrap mask). -/
def IMG_UVEC : Nat := 16

/-- Schema bit `ifm3d::IMG_GRAY`. -/
def IMG_GRAY : Nat := 64

/-- Schema bit `ifm3d::IMG_DIS_NOISE`. -/
def IMG_DIS_NOISE : Nat := 2048

/-- `frame_id_ = frame_id_base + "_link"` (onInit, line 248). -/
def onInitFrameId (base : String) : String := base ++ "_link"

/-- `optical_frame_id_ = frame_id_base + "_optical_link"` (onInit, line
249). -/
def onInitOpticalFrameId (base : String) : String := base ++ "_optical_link"

/-- The nodelet configuration the loop reads (fixed after `onInit`). -/
structure RunCfg where
  schema_mask : Nat
  frame_latency_thresh : ℚ
  frame_id : String
  optical_frame_id : String
deriving DecidableEq

/-- Per-iteration environment.  `nowA`,`nowB`,`nowB2`,`nowC`,`nowD` are the
successive `ros::Time::now()` readings at source lines 579, 587, 590, 564
and 573 respectively; `tol` is the active `timeout_tolerance_secs_` (it can
be changed concurrently by SoftOn/SoftOff, hence per-cycle). -/
structure CycleEnv where
  acquireOk : Bool
  tol : ℚ
  nowA : ℚ
  nowB : ℚ
  nowB2 : ℚ
  nowC : ℚ
  nowD : ℚ
  deviceStamp : ℚ
  rgbNonEmpty : Bool
deriving DecidableEq

/-- Loop-local state of `Run`. -/
structure RunState where
  got_uvec : Bool
  last_frame : ℚ
  noticeDone : Bool
  activeMask : Nat
deriving DecidableEq

/-- Observable events of one loop iteration, in program order.
`reinit mask` stands for the retry-until-success loop around
`InitStructures(mask, pcic_port_)`; each `pub` event is one publish call
carrying the header passed to the corresponding conversion. -/
inductive Event where
  | reinit (mask : Nat)
  | noticeTimeSync
  | pubUvec (h : Header)
  | pubConf (h : Header)
  | pubCloud (h : Header)
  | pubDistance (h : Header)
  | pubDistanceNoise (h : Header)
  | pubAmplitude (h : Header)
  | pubRawAmplitude (h : Header)
  | pubGray (h : Header)
  | pubRgb (h : Header)
  | pubExtrinsics (h : Header)
deriving DecidableEq

/-- Whether an event is the unit-vector publish. -/
def isUvecPub : Event → Bool
  | .pubUvec _ => true
  | _ => false

/-- Whether an event is a streaming-channel publish (confidence, cloud,
distance, distance noise, amplitude, raw amplitude, gray, RGB or
extrinsics). -/
def isStreamPub : Event → Bool
  | .pubConf _ | .pubCloud _ | .pubDistance _ | .pubDistanceNoise _
  | .pubAmplitude _ | .pubRawAmplitude _ | .pubGray _ | .pubRgb _
  | .pubExtrinsics _ => true
  | _ => false

/-- The header a publish event carries, if any. -/
def evHeader : Event → Option Header
  | .reinit _ => none
  | .noticeTimeSync => none
  | .pubUvec h => some h
  | .pubConf h => some h
  | .pubCloud h => some h
  | .pubDistance h => some h
  | .pubDistanceNoise h => some h
  | .pubAmplitude h => some h
  | .pubRawAmplitude h => some h
  | .pubGray h => some h
  | .pubRgb h => some h
  | .pubExtrinsics h => some h

/-- The publish sequence of a normal streaming iteration (lines 655-725):
confidence unconditionally; then cloud, distance, distance-noise, amplitude,
raw-amplitude and gray, each gated by its schema-mask bit; then RGB whenever
the RGB sub-image is non-empty; then extrinsics unconditionally.  The cloud
uses the non-optical header `head`; everything else uses `optical_head`. -/
def streamEvents (cfg : RunCfg) (e : CycleEnv) (head ohead : Header) :
    List Event :=
  [Event.pubConf ohead]
    ++ (if cfg.schema_mask &&& IMG_CART = IMG_CART
        then [Event.pubCloud head] else [])
    ++ (if cfg.schema_mask &&& IMG_RDIS = IMG_RDIS
        then [Event.pubDistance ohead] else [])
    ++ (if cfg.schema_mask &&& IMG_DIS_NOISE = IMG_DIS_NOISE
        then [Event.pubDistanceNoise ohead] else [])
    ++ (if cfg.schema_mask &&& IMG_AMP = IMG_AMP
        then [Event.pubAmplitude ohead] else [])
    ++ (if cfg.schema_mask &&& IMG_RAMP = IMG_RAMP
        then [Event.pubRawAmplitude ohead] else [])
    ++ (if cfg.schema_mask &&& IMG_GRAY = IMG_GRAY
        then [Event.pubGray ohead] else [])
    ++ (if e.rgbNonEmpty then [Event.pubRgb ohead] else [])
    ++ [Event.pubExtrinsics ohead]

/-- The failed-acquire half of an iteration (lines 553-577): if the gap
since the last successful frame exceeds the active tolerance, reinitialize
with the minimal unit-vector mask while `got_uvec` is still false and with
the full user schema once it is true (retrying until success), then reset
the last-success clock to a fresh `now()`; otherwise do nothing and start
the next iteration. -/
def failCycle (cfg : RunCfg) (s : RunState) (e : CycleEnv) :
    RunState × List Event :=
  if e.nowC - s.last_frame > e.tol then
    let m := if s.got_uvec then cfg.schema_mask else IMG_UVEC
    ({ s with last_frame := e.nowD, activeMask := m }, [Event.reinit m])
  else
    (s, [])

/-- The successful-acquire half of an iteration (lines 579-727): update the
last-success clock; stamp the headers with the device capture time unless
`now - stamp > frame_latency_thresh`, in which case substitute a fresh local
`now()` and log the once-only sync notice; then either publish the unit
vectors once and reinitialize with the full schema (`got_uvec` false), or
run the streaming publish sequence (`got_uvec` true). -/
def succCycle (cfg : RunCfg) (s : RunState) (e : CycleEnv) :
    RunState × List Event :=
  let late : Bool := decide (e.nowB - e.deviceStamp > cfg.frame_latency_thresh)
  let stamp : ℚ := if late then e.nowB2 else e.deviceStamp
  let noticeEvts : List Event :=
    if late && !s.noticeDone then [Event.noticeTimeSync] else []
  let head : Header := { frame_id := cfg.frame_id, stamp := stamp }
  let ohead : Header := { frame_id := cfg.optical_frame_id, stamp := stamp }
  let s1 : RunState :=
    { s with last_frame := e.nowA, noticeDone := s.noticeDone || late }
  if s.got_uvec then
    (s1, noticeEvts ++ streamEvents cfg e head ohead)
  else
    ({ s1 with got_uvec := true, activeMask := cfg.schema_mask },
     noticeEvts ++ [Event.pubUvec ohead, Event.reinit cfg.schema_mask])

/-- One iteration of the `while (ros::ok())` loop. -/
def runCycle (cfg : RunCfg) (s : RunState) (e : CycleEnv) :
    RunState × List Event :=
  if e.acquireOk then succCycle cfg s e else failCycle cfg s e

/-- Run the loop over a finite prefix of iteration environments, collecting
the per-iteration event lists. -/
def runFrom (cfg : RunCfg) (s : RunState) :
    List CycleEnv → RunState × List (List Event)
  | [] => (s, [])
  | e :: es =>
    let step := runCycle cfg s e
    let rest := runFrom cfg step.1 es
    (rest.1, step.2 :: rest.2)

/-- The loop state on entry (lines 548-549): `got_uvec = false`, the
last-success clock primed with the current time, the sync notice not yet
logged, and the frame grabber bound to the minimal unit-vector mask by the
initial `InitStructures(ifm3d::IMG_UVEC, pcic_port_)` retry loop (line
527). -/
def initState (t0 : ℚ) : RunState :=
  { got_uvec := false, last_frame := t0, noticeDone := false,
    activeMask := IMG_UVEC }

/-- The acquisition loop from its initial state. -/
def runLoop (cfg : RunCfg) (t0 : ℚ) (envs : List CycleEnv) :
    RunState × List (List Event) :=
  runFrom cfg (initState t0) envs

/-- The indicator of the first successful acquire in an environment trace:
true exactly at the first iteration whose `AcquireFrame` succeeds. -/
def firstSuccessMask : List CycleEnv → List Bool
  | [] => []
  | e :: es =>
    if e.acquireOk then true :: List.replicate es.length false
    else false :: firstSuccessMask es

/-- Scan of an event list that fails exactly when a unit-vector publish
occurs at or after a streaming-channel publish (`seen` = a streaming publish
has already occurred). -/
def okFrom (seen : Bool) : List Event → Bool
  | [] => true
  | ev :: r =>
    if isUvecPub ev then !seen && okFrom seen r
    else okFrom (seen || isStreamPub ev) r

/-- A unit-vector publish event is not a streaming-channel publish. -/
theorem uvec_not_stream (ev : Event) (h : isUvecPub ev = true) :
    isStreamPub ev = false := by
  cases ev <;> simp_all [isUvecPub, isStreamPub]

/-- `okFrom` splits over an append. -/
theorem okFrom_append : ∀ (a b : List Event) (seen : Bool),
    okFrom seen (a ++ b) =
      (okFrom seen a && okFrom (seen || a.any isStreamPub) b) := by
  intro a
  induction a with
  | nil => intro b seen; simp [okFrom]
  | cons ev r ih =>
    intro b seen
    cases hev : isUvecPub ev with
    | true =>
      have hst := uvec_not_stream ev hev
      simp [okFrom, hev, hst, ih, Bool.and_assoc]
    | false =>
      simp [okFrom, hev, ih, Bool.or_assoc]

/-- A list with no unit-vector publish passes `okFrom` from any start. -/
theorem okFrom_of_noUvec : ∀ (l : List Event) (seen : Bool),
    l.all (fun ev => !isUvecPub ev) = true → okFrom seen l = true := by
  intro l
  induction l with
  | nil => intro seen _; rfl
  | cons ev r ih =>
    intro seen h
    simp only [List.all_cons, Bool.and_eq_true] at h
    have hev : isUvecPub ev = false := by
      cases hx : isUvecPub ev
      · rfl
      · rw [hx] at h; exact absurd h.1 (by simp)
    simp [okFrom, hev, ih _ h.2]

/-- A list with no streaming publish passes `okFrom false`. -/
theorem okFrom_of_noStream : ∀ (l : List Event),
    l.all (fun ev => !isStreamPub ev) = true → okFrom false l = true := by
  intro l
  induction l with
  | nil => intro _; rfl
  | cons ev r ih =>
    intro h
    simp only [List.all_cons, Bool.and_eq_true] at h
    have hev : isStreamPub ev = false := by
      cases hx : isStreamPub ev
      · rfl
      · rw [hx] at h; exact absurd h.1 (by simp)
    cases hu : isUvecPub ev <;> simp [okFrom, hu, hev, ih h.2]

/-- An optional singleton satisfies `all p` when `p` holds of its element. -/
theorem all_ite_singleton {c : Prop} [Decidable c] (x : Event)
    (p : Event → Bool) (h : p x = true) :
    (if c then [x] else []).all p = true := by
  split <;> simp [h]

/-- Every event of a streaming publish sequence satisfies a predicate that
holds of each of the nine possible publishes. -/
theorem streamEvents_all (cfg : RunCfg) (e : CycleEnv) (head ohead : Header)
    (p : Event → Bool)
    (h1 : p (Event.pubConf ohead) = true)
    (h2 : p (Event.pubCloud head) = true)
    (h3 : p (Event.pubDistance ohead) = true)
    (h4 : p (Event.pubDistanceNoise ohead) = true)
    (h5 : p (Event.pubAmplitude ohead) = true)
    (h6 : p (Event.pubRawAmplitude ohead) = true)
    (h7 : p (Event.pubGray ohead) = true)
    (h8 : p (Event.pubRgb ohead) = true)
    (h9 : p (Event.pubExtrinsics ohead) = true) :
    (streamEvents cfg e head ohead).all p = true := by
  unfold streamEvents
  simp [List.all_append, h1, h9, all_ite_singleton _ _ h2,
    all_ite_singleton _ _ h3, all_ite_singleton _ _ h4,
    all_ite_singleton _ _ h5, all_ite_singleton _ _ h6,
    all_ite_singleton _ _ h7, all_ite_singleton _ _ h8]

/-- Every event of a streaming publish sequence is a streaming-channel
publish. -/
theorem streamEvents_stream (cfg : RunCfg) (e : CycleEnv) (head ohead : Header) :
    (streamEvents cfg e head ohead).all isStreamPub = true := by
  exact streamEvents_all cfg e head ohead isStreamPub rfl rfl rfl rfl rfl rfl rfl rfl rfl

/-- No event of a streaming publish sequence is the unit-vector publish. -/
theorem streamEvents_noUvec (cfg : RunCfg) (e : CycleEnv) (head ohead : Header) :
    (streamEvents cfg e head ohead).all (fun ev => !isUvecPub ev) = true := by
  exact streamEvents_all cfg e head ohead _ rfl rfl rfl rfl rfl rfl rfl rfl rfl

/-- Weaken a conjunction under `List.all` to its left component. -/
theorem all_and_left {p q : Event → Bool} : ∀ l : List Event,
    l.all (fun ev => p ev && q ev) = true → l.all p = true := by
  intro l h
  simp only [List.all_eq_true, Bool.and_eq_true] at *
  exact fun x hx => (h x hx).1

/-- Weaken a conjunction under `List.all` to its right component. -/
theorem all_and_right {p q : Event → Bool} : ∀ l : List Event,
    l.all (fun ev => p ev && q ev) = true → l.all q = true := by
  intro l h
  simp only [List.all_eq_true, Bool.and_eq_true] at *
  exact fun x hx => (h x hx).2

/-- `any` is false on a list where the negation holds everywhere. -/
theorem any_eq_false_of_all_not {p : Event → Bool} : ∀ l : List Event,
    l.all (fun ev => !p ev) = true → l.any p = false := by
  intro l h
  simp only [List.all_eq_true, Bool.not_eq_true'] at h
  simp only [List.any_eq_false]
  intro x hx
  simp [h x hx]

/-- `filter` is empty on a list where the negation holds everywhere. -/
theorem filter_eq_nil_of_all_not {p : Event → Bool} : ∀ l : List Event,
    l.all (fun ev => !p ev) = true → l.filter p = [] := by
  intro l h
  simp only [List.all_eq_true, Bool.not_eq_true'] at h
  simp only [List.filter_eq_nil_iff]
  intro x hx
  simp [h x hx]

/-- A failed-acquire iteration never changes the `got_uvec` latch and never
publishes anything. -/
theorem failCycle_props (cfg : RunCfg) (s : RunState) (e : CycleEnv) :
    (failCycle cfg s e).1.got_uvec = s.got_uvec ∧
    (failCycle cfg s e).2.all
      (fun ev => !isUvecPub ev && !isStreamPub ev) = true := by
  unfold failCycle
  split <;> simp [isUvecPub, isStreamPub]

/-- A successful iteration with the latch already set keeps it set and
publishes no unit vectors. -/
theorem succCycle_true_props (cfg : RunCfg) (s : RunState) (e : CycleEnv)
    (h : s.got_uvec = true) :
    (succCycle cfg s e).1.got_uvec = true ∧
    (succCycle cfg s e).2.all (fun ev => !isUvecPub ev) = true := by
  unfold succCycle
  simp only [h, if_true, List.all_append, Bool.and_eq_true]
  refine ⟨trivial, ?_, streamEvents_noUvec cfg e _ _⟩
  exact all_ite_singleton _ _ rfl

/-- A successful iteration with the latch clear sets it, publishes the unit
vectors exactly once, and publishes no streaming channel. -/
theorem succCycle_false_props (cfg : RunCfg) (s : RunState) (e : CycleEnv)
    (h : s.got_uvec = false) :
    (succCycle cfg s e).1.got_uvec = true ∧
    ((succCycle cfg s e).2.filter isUvecPub).length = 1 ∧
    (succCycle cfg s e).2.any isUvecPub = true ∧
    (succCycle cfg s e).2.all (fun ev => !isStreamPub ev) = true := by
  unfold succCycle
  simp only [h, Bool.false_eq_true, if_false]
  refine ⟨trivial, ?_, ?_, ?_⟩ <;>
    · simp only [List.filter_append, List.any_append, List.all_append]
      split <;> simp [isUvecPub, isStreamPub]

/-- One iteration with the latch set: it stays set and no unit vectors are
published. -/
theorem runCycle_true_props (cfg : RunCfg) (s : RunState) (e : CycleEnv)
    (h : s.got_uvec = true) :
    (runCycle cfg s e).1.got_uvec = true ∧
    (runCycle cfg s e).2.all (fun ev => !isUvecPub ev) = true := by
  unfold runCycle
  split
  · exact succCycle_true_props cfg s e h
  · have hf := failCycle_props cfg s e
    exact ⟨hf.1.trans h, all_and_left _ hf.2⟩

/-- Over any trace started with the latch set, the latch stays set, no
unit-vector publish ever occurs, no cycle mixes unit vectors with streaming
publishes, and `okFrom` passes from any start flag. -/
theorem runFrom_true_props (cfg : RunCfg) : ∀ (envs : List CycleEnv)
    (s : RunState), s.got_uvec = true →
    (runFrom cfg s envs).1.got_uvec = true ∧
    (runFrom cfg s envs).2.map (fun c => c.any isUvecPub) =
      List.replicate envs.length false ∧
    ((runFrom cfg s envs).2.join.filter isUvecPub).length = 0 ∧
    (∀ seen, okFrom seen (runFrom cfg s envs).2.join = true) ∧
    (runFrom cfg s envs).2.all
      (fun c => !(c.any isUvecPub && c.any isStreamPub)) = true := by
  intro envs
  induction envs with
  | nil => intro s h; exact ⟨h, rfl, rfl, fun _ => rfl, rfl⟩
  | cons e es ih =>
    intro s h
    have hstep := runCycle_true_props cfg s e h
    have hrest := ih (runCycle cfg s e).1 hstep.1
    have hanyF : (runCycle cfg s e).2.any isUvecPub = false :=
      any_eq_false_of_all_not _ hstep.2
    have hfilF : (runCycle cfg s e).2.filter isUvecPub = [] :=
      filter_eq_nil_of_all_not _ hstep.2
    refine ⟨hrest.1, ?_, ?_, ?_, ?_⟩
    · simp [runFrom, hanyF, hrest.2.1, List.replicate_succ]
    · simp only [runFrom, List.join_cons, List.filter_append,
        List.length_append, hfilF, List.length_nil, hrest.2.2.1]
    · intro seen
      simp only [runFrom, List.join_cons, okFrom_append]
      rw [okFrom_of_noUvec _ _ hstep.2, hrest.2.2.2.1]
      rfl
    · simp only [runFrom, List.all_cons, hanyF, Bool.false_and,
        Bool.not_false, Bool.true_and]
      exact hrest.2.2.2.2

/-- Over any trace started with the latch clear (the state on loop entry),
the unit vectors are published exactly in the first successful cycle and
exactly once overall, never in a cycle with streaming publishes, and every
unit-vector publish precedes every streaming publish. -/
theorem runFrom_false_props (cfg : RunCfg) : ∀ (envs : List CycleEnv)
    (s : RunState), s.got_uvec = false →
    (runFrom cfg s envs).2.map (fun c => c.any isUvecPub) =
      firstSuccessMask envs ∧
    ((runFrom cfg s envs).2.join.filter isUvecPub).length =
      (if envs.any (fun x => x.acquireOk) then 1 else 0) ∧
    okFrom false (runFrom cfg s envs).2.join = true ∧
    (runFrom cfg s envs).2.all
      (fun c => !(c.any isUvecPub && c.any isStreamPub)) = true := by
  intro envs
  induction envs with
  | nil => intro s h; exact ⟨rfl, rfl, rfl, rfl⟩
  | cons e es ih =>
    intro s h
    cases ha : e.acquireOk with
    | false =>
      have hcycle : runCycle cfg s e = failCycle cfg s e := by
        simp [runCycle, ha]
      have hf := failCycle_props cfg s e
      have hgot : (runCycle cfg s e).1.got_uvec = false := by
        rw [hcycle, hf.1]; exact h
      have hrest := ih (runCycle cfg s e).1 hgot
      have hnoU : (runCycle cfg s e).2.all (fun ev => !isUvecPub ev) = true := by
        rw [hcycle]; exact all_and_left _ hf.2
      have hnoS : (runCycle cfg s e).2.all (fun ev => !isStreamPub ev) = true := by
        rw [hcycle]; exact all_and_right _ hf.2
      have hanyF : (runCycle cfg s e).2.any isUvecPub = false :=
        any_eq_false_of_all_not _ hnoU
      have hanySF : (runCycle cfg s e).2.any isStreamPub = false :=
        any_eq_false_of_all_not _ hnoS
      have hfilF : (runCycle cfg s e).2.filter isUvecPub = [] :=
        filter_eq_nil_of_all_not _ hnoU
      refine ⟨?_, ?_, ?_, ?_⟩
      · simp [runFrom, firstSuccessMask, ha, hanyF, hrest.1]
      · simp only [runFrom, List.join_cons, List.filter_append,
          List.length_append, hfilF, List.length_nil, List.any_cons, ha,
          Bool.false_or, hrest.2.1, Nat.zero_add]
      · simp only [runFrom, List.join_cons, okFrom_append]
        rw [okFrom_of_noUvec _ _ hnoU, hanySF]
        simpa using hrest.2.2.1
      · simp only [runFrom, List.all_cons, hanyF, Bool.false_and,
          Bool.not_false, Bool.true_and]
        exact hrest.2.2.2
    | true =>
      have hcycle : runCycle cfg s e = succCycle cfg s e := by
        simp [runCycle, ha]
      have hsp := succCycle_false_props cfg s e h
      have hgot : (runCycle cfg s e).1.got_uvec = true := by
        rw [hcycle]; exact hsp.1
      have hrest := runFrom_true_props cfg es (runCycle cfg s e).1 hgot
      have hfil1 : ((runCycle cfg s e).2.filter isUvecPub).length = 1 := by
        rw [hcycle]; exact hsp.2.1
      have hany1 : (runCycle cfg s e).2.any isUvecPub = true := by
        rw [hcycle]; exact hsp.2.2.1
      have hnoS : (runCycle cfg s e).2.all (fun ev => !isStreamPub ev) = true := by
        rw [hcycle]; exact hsp.2.2.2
      have hanySF : (runCycle cfg s e).2.any isStreamPub = false :=
        any_eq_false_of_all_not _ hnoS
      refine ⟨?_, ?_, ?_, ?_⟩
      · simp [runFrom, firstSuccessMask, ha, hany1, hrest.2.1]
      · simp only [runFrom, List.join_cons, List.filter_append,
          List.length_append, hfil1, List.any_cons, ha, Bool.true_or,
          if_true, hrest.2.2.1, List.length_nil]
      · simp only [runFrom, List.join_cons, okFrom_append]
        rw [okFrom_of_noStream _ hnoS, hanySF]
        simpa using hrest.2.2.2.1 false
      · simp only [runFrom, List.all_cons, hanySF, Bool.and_false,
          Bool.not_false, Bool.true_and]
        exact hrest.2.2.2.2

/-- Claim C2: across one run of the acquisition loop the unit-vector image
is published exactly once — in the cycle of the first successful frame, and
only if some frame ever succeeds — and never again for the life of the
loop, no matter how many timeout-driven reinitializations occur afterwards;
no cycle contains both a unit-vector publish and a streaming-channel
publish, and every unit-vector publish precedes every streaming-channel
publish in the whole event stream. -/
theorem uvec_published_once : ∀ (cfg : RunCfg) (t0 : ℚ) (envs : List CycleEnv),
    ((runLoop cfg t0 envs).2.join.filter isUvecPub).length =
      (if envs.any (fun x => x.acquireOk) then 1 else 0) ∧
    (runLoop cfg t0 envs).2.map (fun c => c.any isUvecPub) =
      firstSuccessMask envs ∧
    (runLoop cfg t0 envs).2.all
      (fun c => !(c.any isUvecPub && c.any isStreamPub)) = true ∧
    okFrom false (runLoop cfg t0 envs).2.join = true := by
  intro cfg t0 envs
  have hp := runFrom_false_props cfg envs (initState t0) rfl
  exact ⟨hp.2.1, hp.1, hp.2.2.2, hp.2.2.1⟩

/-- `runFrom` splits over an append of environment traces. -/
theorem runFrom_append (cfg : RunCfg) : ∀ (p q : List CycleEnv) (s : RunState),
    runFrom cfg s (p ++ q) =
      ((runFrom cfg (runFrom cfg s p).1 q).1,
       (runFrom cfg s p).2 ++ (runFrom cfg (runFrom cfg s p).1 q).2) := by
  intro p
  induction p with
  | nil => intro q s; rfl
  | cons e es ih => intro q s; simp [runFrom, ih]

/-- One cycle list per environment. -/
theorem runFrom_length (cfg : RunCfg) : ∀ (envs : List CycleEnv) (s : RunState),
    ((runFrom cfg s envs).2).length = envs.length := by
  intro envs
  induction envs with
  | nil => intro s; rfl
  | cons e es ih => intro s; simp [runFrom, ih]

/-- Starting with the latch clear, the latch after a trace records exactly
whether some acquire in the trace succeeded. -/
theorem runFrom_gotUvec_any (cfg : RunCfg) : ∀ (envs : List CycleEnv)
    (s : RunState), s.got_uvec = false →
    (runFrom cfg s envs).1.got_uvec = envs.any (fun x => x.acquireOk) := by
  intro envs
  induction envs with
  | nil => intro s h; simpa using h
  | cons e es ih =>
    intro s h
    cases ha : e.acquireOk with
    | false =>
      have hcycle : runCycle cfg s e = failCycle cfg s e := by
        simp [runCycle, ha]
      have hgot : (runCycle cfg s e).1.got_uvec = false := by
        rw [hcycle, (failCycle_props cfg s e).1]; exact h
      simp [runFrom, List.any_cons, ha, ih _ hgot]
    | true =>
      have hcycle : runCycle cfg s e = succCycle cfg s e := by
        simp [runCycle, ha]
      have hgot : (runCycle cfg s e).1.got_uvec = true := by
        rw [hcycle]; exact (succCycle_false_props cfg s e h).1
      have htr := runFrom_true_props cfg es (runCycle cfg s e).1 hgot
      simp [runFrom, List.any_cons, ha, htr.1]

/-- A failed acquire whose gap exceeds the active tolerance: the iteration
reinitializes with the phase-appropriate mask, resets the last-success
clock to a fresh now, and publishes nothing. -/
theorem failCycle_stale (cfg : RunCfg) (s : RunState) (e : CycleEnv)
    (hst : e.nowC - s.last_frame > e.tol) :
    failCycle cfg s e =
      ({ s with
         last_frame := e.nowD,
         activeMask := if s.got_uvec then cfg.schema_mask else IMG_UVEC },
       [Event.reinit (if s.got_uvec then cfg.schema_mask else IMG_UVEC)]) := by
  unfold failCycle
  rw [if_pos hst]

/-- Claim C8: whenever a frame wait fails and the wall-clock gap since the
last successful frame exceeds the active staleness tolerance, that
iteration's whole behavior is to reinitialize the session triple — with the
minimal unit-vector mask when no frame has ever succeeded (unit vectors not
yet fetched), with the full user schema otherwise — retrying until success,
then reset the last-success clock to a fresh now, publishing nothing that
iteration. -/
theorem stale_reinit_mask : ∀ (cfg : RunCfg) (t0 : ℚ) (p : List CycleEnv)
    (e : CycleEnv) (q : List CycleEnv),
    e.acquireOk = false →
    e.nowC - (runFrom cfg (initState t0) p).1.last_frame > e.tol →
    ((runLoop cfg t0 (p ++ e :: q)).2.get? p.length =
       some [Event.reinit
         (if p.any (fun x => x.acquireOk) then cfg.schema_mask else IMG_UVEC)]) ∧
    (runFrom cfg (initState t0) (p ++ [e])).1.last_frame = e.nowD ∧
    (runFrom cfg (initState t0) (p ++ [e])).1.activeMask =
      (if p.any (fun x => x.acquireOk) then cfg.schema_mask else IMG_UVEC) := by
  intro cfg t0 p e q ha hst
  have hgot : (runFrom cfg (initState t0) p).1.got_uvec =
      p.any (fun x => x.acquireOk) :=
    runFrom_gotUvec_any cfg p (initState t0) rfl
  have hcyc : runCycle cfg (runFrom cfg (initState t0) p).1 e =
      failCycle cfg (runFrom cfg (initState t0) p).1 e := by
    simp [runCycle, ha]
  have hfc := failCycle_stale cfg (runFrom cfg (initState t0) p).1 e hst
  have hlen := runFrom_length cfg p (initState t0)
  refine ⟨?_, ?_, ?_⟩
  · unfold runLoop
    rw [runFrom_append cfg p (e :: q) (initState t0)]
    have hcons : (runFrom cfg (runFrom cfg (initState t0) p).1 (e :: q)).2 =
        (runCycle cfg (runFrom cfg (initState t0) p).1 e).2 ::
          (runFrom cfg
            (runCycle cfg (runFrom cfg (initState t0) p).1 e).1 q).2 := rfl
    rw [hcons, hcyc, hfc]
    rw [List.get?_append_right (Nat.le_of_eq hlen)]
    simp [hlen, hgot]
  · rw [runFrom_append cfg p [e] (initState t0)]
    have hone : (runFrom cfg (runFrom cfg (initState t0) p).1 [e]).1 =
        (runCycle cfg (runFrom cfg (initState t0) p).1 e).1 := rfl
    simp only [hone, hcyc, hfc]
  · rw [runFrom_append cfg p [e] (initState t0)]
    have hone : (runFrom cfg (runFrom cfg (initState t0) p).1 [e]).1 =
        (runCycle cfg (runFrom cfg (initState t0) p).1 e).1 := rfl
    simp only [hone, hcyc, hfc, hgot]

/-- A concrete configuration for the loop witnesses: cartesian bit set. -/
def cfgW8 : RunCfg :=
  { schema_mask := 8, frame_latency_thresh := 60, frame_id := "cam_link",
    optical_frame_id := "cam_optical_link" }

/-- A successful bootstrap iteration for the loop witnesses. -/
def envS8 : CycleEnv :=
  { acquireOk := true, tol := 5, nowA := 10, nowB := 10, nowB2 := 10,
    nowC := 0, nowD := 0, deviceStamp := 9, rgbNonEmpty := false }

/-- A failed, stale iteration for the loop witnesses: the gap since the last
success (10) exceeds the tolerance 5 at the staleness check (100). -/
def envF8 : CycleEnv :=
  { acquireOk := false, tol := 5, nowA := 100, nowB := 100, nowB2 := 100,
    nowC := 100, nowD := 50, deviceStamp := 99, rgbNonEmpty := false }

/-- Witness for `stale_reinit_mask`: after one successful bootstrap cycle, a
stale timeout reinitializes with the full schema mask and resets the
clock. -/
theorem stale_reinit_mask_witness :
    ((runLoop cfgW8 0 ([envS8] ++ envF8 :: [])).2.get?
        ([envS8] : List CycleEnv).length =
      some [Event.reinit
        (if ([envS8] : List CycleEnv).any (fun x => x.acquireOk)
         then cfgW8.schema_mask else IMG_UVEC)]) ∧
    (runFrom cfgW8 (initState 0) ([envS8] ++ [envF8])).1.last_frame =
      envF8.nowD ∧
    (runFrom cfgW8 (initState 0) ([envS8] ++ [envF8])).1.activeMask =
      (if ([envS8] : List CycleEnv).any (fun x => x.acquireOk)
       then cfgW8.schema_mask else IMG_UVEC) :=
  stale_reinit_mask cfgW8 0 [envS8] envF8 [] rfl (by
    show envF8.nowC - (runFrom cfgW8 (initState 0) [envS8]).1.last_frame >
      envF8.tol
    rw [show (runFrom cfgW8 (initState 0) [envS8]).1.last_frame = (10 : ℚ)
          from rfl,
        show envF8.nowC = (100 : ℚ) from rfl,
        show envF8.tol = (5 : ℚ) from rfl]
    norm_num)

/-- Whether an event is the once-only time-sync notice log. -/
def isNotice : Event → Bool
  | .noticeTimeSync => true
  | _ => false

/-- The header of the event, when present, carries the stamp `σ`. -/
def stampIs (σ : ℚ) (ev : Event) : Bool :=
  match evHeader ev with
  | some h => h.stamp == σ
  | none => true

/-- The notice is not a member of an event list it is absent from. -/
theorem notice_not_mem_of_all : ∀ l : List Event,
    l.all (fun ev => !isNotice ev) = true → Event.noticeTimeSync ∉ l := by
  intro l h hmem
  simp only [List.all_eq_true] at h
  have hx := h _ hmem
  simp [isNotice] at hx

/-- All stream publishes built from two headers with stamp `σ` carry `σ`. -/
theorem streamEvents_stampIs (cfg : RunCfg) (e : CycleEnv) (σ : ℚ)
    (fid1 fid2 : String) :
    (streamEvents cfg e { frame_id := fid1, stamp := σ }
      { frame_id := fid2, stamp := σ }).all (stampIs σ) = true := by
  refine streamEvents_all cfg e _ _ (stampIs σ) ?_ ?_ ?_ ?_ ?_ ?_ ?_ ?_ ?_ <;>
    simp [stampIs, evHeader]

/-- No stream publish is the notice. -/
theorem streamEvents_noNotice (cfg : RunCfg) (e : CycleEnv)
    (head ohead : Header) :
    (streamEvents cfg e head ohead).all (fun ev => !isNotice ev) = true :=
  streamEvents_all cfg e head ohead _ rfl rfl rfl rfl rfl rfl rfl rfl rfl

/-- Claim C9 (amended): on a successful frame, the published headers carry
the fresh local wall-clock reading exactly when the local clock at the check
exceeds the device-reported capture stamp by more than
`frame_latency_thresh` (in that case the once-only sync notice is logged iff
it has not been logged before); otherwise — including a device stamp ahead
of the local clock by any amount — the headers carry the device-reported
capture stamp, and no notice is logged. -/
theorem stamp_skew_amended : ∀ (cfg : RunCfg) (s : RunState) (e : CycleEnv),
    e.acquireOk = true →
    ((e.nowB - e.deviceStamp > cfg.frame_latency_thresh →
        (runCycle cfg s e).2.all (stampIs e.nowB2) = true ∧
        (Event.noticeTimeSync ∈ (runCycle cfg s e).2 ↔
          s.noticeDone = false)) ∧
     (¬(e.nowB - e.deviceStamp > cfg.frame_latency_thresh) →
        (runCycle cfg s e).2.all (stampIs e.deviceStamp) = true ∧
        Event.noticeTimeSync ∉ (runCycle cfg s e).2)) := by
  intro cfg s e ha
  have hrc : runCycle cfg s e = succCycle cfg s e := by simp [runCycle, ha]
  constructor
  · intro hl
    have hlate : decide (e.nowB - e.deviceStamp > cfg.frame_latency_thresh)
        = true := decide_eq_true hl
    rw [hrc]
    unfold succCycle
    simp only [hlate, Bool.true_and, if_true]
    constructor
    · cases hg : s.got_uvec <;>
        simp [List.all_append, stampIs, evHeader, streamEvents_stampIs,
          all_ite_singleton]
    · have hnn : ∀ (head ohead : Header),
          Event.noticeTimeSync ∉ streamEvents cfg e head ohead :=
        fun head ohead =>
          notice_not_mem_of_all _ (streamEvents_noNotice cfg e head ohead)
      cases hg : s.got_uvec <;> cases hnd : s.noticeDone <;>
        simp [List.mem_append, hnn]
  · intro hl
    have hlate : decide (e.nowB - e.deviceStamp > cfg.frame_latency_thresh)
        = false := decide_eq_false hl
    rw [hrc]
    unfold succCycle
    simp only [hlate, Bool.false_and, if_false, Bool.false_eq_true,
      List.nil_append]
    have hnn : ∀ (head ohead : Header),
        Event.noticeTimeSync ∉ streamEvents cfg e head ohead :=
      fun head ohead =>
        notice_not_mem_of_all _ (streamEvents_noNotice cfg e head ohead)
    constructor
    · cases hg : s.got_uvec <;>
        simp [List.all_append, stampIs, evHeader, streamEvents_stampIs,
          all_ite_singleton]
    · cases hg : s.got_uvec <;> simp [List.mem_append, hnn]

/-- Configuration for the C9 counterexample: latency threshold 60 s. -/
def cfgC9 : RunCfg :=
  { schema_mask := 0, frame_latency_thresh := 60, frame_id := "cam_link",
    optical_frame_id := "cam_optical_link" }

/-- Streaming-phase state for the C9 counterexample. -/
def sC9 : RunState :=
  { got_uvec := true, last_frame := 0, noticeDone := false, activeMask := 0 }

/-- Iteration whose device stamp (1000) is AHEAD of the local clock (0) by
far more than the 60 s threshold. -/
def eC9 : CycleEnv :=
  { acquireOk := true, tol := 5, nowA := 0, nowB := 0, nowB2 := 0, nowC := 0,
    nowD := 0, deviceStamp := 1000, rgbNonEmpty := false }

/-- Claim C9 counterexample: the claim says that whenever the device stamp
disagrees with local wall-clock time by more than `frame_latency_thresh`,
the published header timestamp equals local time.  Here the device stamp
1000 disagrees with the local clock 0 by 1000 > 60, yet the code's check is
one-sided (`now - stamp > thresh` only), so the published headers carry the
device stamp 1000, not the local time 0. -/
theorem stamp_skew_counterexample :
    eC9.deviceStamp - eC9.nowB > cfgC9.frame_latency_thresh ∧
    (runCycle cfgC9 sC9 eC9).2 =
      [Event.pubConf { frame_id := "cam_optical_link", stamp := 1000 },
       Event.pubExtrinsics { frame_id := "cam_optical_link", stamp := 1000 }] ∧
    eC9.nowB ≠ (1000 : ℚ) := by
  refine ⟨?_, ?_, ?_⟩
  · show (1000 : ℚ) - 0 > 60
    norm_num
  · have hlate : decide (eC9.nowB - eC9.deviceStamp >
        cfgC9.frame_latency_thresh) = false := by
      rw [decide_eq_false_iff_not]
      show ¬((0 : ℚ) - 1000 > 60)
      norm_num
    simp only [runCycle, succCycle, eC9, sC9, cfgC9, if_true, hlate,
      Bool.false_and, if_false, Bool.false_eq_true, List.nil_append,
      streamEvents]
    norm_num [IMG_CART, IMG_RDIS, IMG_DIS_NOISE, IMG_AMP, IMG_RAMP, IMG_GRAY]
  · show (0 : ℚ) ≠ 1000
    norm_num

/-- Streaming-phase state for the C9 witness (notice not yet logged). -/
def sW9 : RunState :=
  { got_uvec := true, last_frame := 0, noticeDone := false, activeMask := 8 }

/-- Iteration whose device stamp (0) lags the local clock (1000) by more
than 60 s; the substituted fresh local reading is 999. -/
def eW9 : CycleEnv :=
  { acquireOk := true, tol := 5, nowA := 1000, nowB := 1000, nowB2 := 999,
    nowC := 1000, nowD := 1000, deviceStamp := 0, rgbNonEmpty := true }

/-- Witness for `stamp_skew_amended`: a lagging device stamp is replaced by
the fresh local reading and the notice is logged. -/
theorem stamp_skew_amended_witness :
    (runCycle cfgW8 sW9 eW9).2.all (stampIs eW9.nowB2) = true ∧
    (Event.noticeTimeSync ∈ (runCycle cfgW8 sW9 eW9).2 ↔
      sW9.noticeDone = false) :=
  (stamp_skew_amended cfgW8 sW9 eW9 rfl).1 (by
    show (1000 : ℚ) - 0 > 60
    norm_num)

/-- Publish events carry the onInit-derived frame identifier appropriate to
their channel: `<base>_link` for the point cloud, `<base>_optical_link` for
everything else (non-publish events are unconstrained). -/
def headerFrameOk (base : String) : Event → Bool
  | .reinit _ => true
  | .noticeTimeSync => true
  | .pubCloud h => h.frame_id == onInitFrameId base
  | .pubUvec h => h.frame_id == onInitOpticalFrameId base
  | .pubConf h => h.frame_id == onInitOpticalFrameId base
  | .pubDistance h => h.frame_id == onInitOpticalFrameId base
  | .pubDistanceNoise h => h.frame_id == onInitOpticalFrameId base
  | .pubAmplitude h => h.frame_id == onInitOpticalFrameId base
  | .pubRawAmplitude h => h.frame_id == onInitOpticalFrameId base
  | .pubGray h => h.frame_id == onInitOpticalFrameId base
  | .pubRgb h => h.frame_id == onInitOpticalFrameId base
  | .pubExtrinsics h => h.frame_id == onInitOpticalFrameId base

/-- All headers occurring in the event list carry one common timestamp. -/
def uniformStamps (evts : List Event) : Bool :=
  match evts.filterMap (fun ev => (evHeader ev).map (fun hh => hh.stamp)) with
  | [] => true
  | a :: rest => rest.all (fun x => x == a)

/-- A list whose headers all carry `σ` has uniform stamps. -/
theorem uniformStamps_of_all (σ : ℚ) : ∀ l : List Event,
    l.all (stampIs σ) = true → uniformStamps l = true := by
  intro l h
  have hall : ∀ x ∈ l.filterMap
      (fun ev => (evHeader ev).map (fun hh => hh.stamp)), x = σ := by
    intro x hx
    rw [List.mem_filterMap] at hx
    obtain ⟨ev, hev, hmap⟩ := hx
    rw [List.all_eq_true] at h
    have hs := h ev hev
    unfold stampIs at hs
    cases hh : evHeader ev with
    | none => rw [hh] at hmap; simp at hmap
    | some hd =>
      rw [hh] at hmap hs
      simp only [Option.map_some'] at hmap
      have hx2 : hd.stamp = x := by injection hmap
      have hx3 : hd.stamp = σ := by simpa using hs
      rw [← hx2, hx3]
  unfold uniformStamps
  cases hfm : l.filterMap
      (fun ev => (evHeader ev).map (fun hh => hh.stamp)) with
  | nil => rfl
  | cons a rest =>
    have ha : a = σ := hall a (by rw [hfm]; exact List.mem_cons_self a rest)
    rw [List.all_eq_true]
    intro x hx
    have hxσ : x = σ := hall x (by rw [hfm]; exact List.mem_cons_of_mem a hx)
    simp [hxσ, ha]

/-- Every header published by a successful iteration carries the iteration's
chosen stamp: the fresh local reading when the device stamp lags by more
than the threshold, the device stamp otherwise. -/
theorem succCycle_all_stamped (cfg : RunCfg) (s : RunState) (e : CycleEnv) :
    (succCycle cfg s e).2.all
      (stampIs (if e.nowB - e.deviceStamp > cfg.frame_latency_thresh
                then e.nowB2 else e.deviceStamp)) = true := by
  cases hlate : decide (e.nowB - e.deviceStamp > cfg.frame_latency_thresh) with
  | true =>
    rw [if_pos (of_decide_eq_true hlate)]
    unfold succCycle
    simp only [hlate, Bool.true_and, if_true]
    cases hg : s.got_uvec <;>
      simp [List.all_append, stampIs, evHeader, streamEvents_stampIs,
        all_ite_singleton]
  | false =>
    rw [if_neg (of_decide_eq_false hlate)]
    unfold succCycle
    simp only [hlate, Bool.false_and, if_false]
    cases hg : s.got_uvec <;>
      simp [List.all_append, stampIs, evHeader, streamEvents_stampIs,
        all_ite_singleton]

/-- Every publish of a successful iteration carries the channel-appropriate
frame identifier. -/
theorem succCycle_frames (cfg : RunCfg) (s : RunState) (e : CycleEnv)
    (base : String) (hf : cfg.frame_id = onInitFrameId base)
    (ho : cfg.optical_frame_id = onInitOpticalFrameId base) :
    (succCycle cfg s e).2.all (headerFrameOk base) = true := by
  have hstream : ∀ σ : ℚ,
      (streamEvents cfg e { frame_id := onInitFrameId base, stamp := σ }
        { frame_id := onInitOpticalFrameId base, stamp := σ }).all
        (headerFrameOk base) = true := by
    intro σ
    refine streamEvents_all _ _ _ _ _ ?_ ?_ ?_ ?_ ?_ ?_ ?_ ?_ ?_ <;>
      simp [headerFrameOk]
  unfold succCycle
  cases hg : s.got_uvec with
  | false =>
    simp only [hg, Bool.false_eq_true, if_false, List.all_append,
      Bool.and_eq_true]
    refine ⟨all_ite_singleton _ _ rfl, ?_⟩
    simp [headerFrameOk, ho]
  | true =>
    simp only [hg, if_true, List.all_append, Bool.and_eq_true]
    refine ⟨all_ite_singleton _ _ rfl, ?_⟩
    rw [hf, ho]
    exact hstream _

/-- Claim C10: with the frame identifiers derived in `onInit`
(`<base>_link` and `<base>_optical_link`), every iteration's publishes use
`<base>_link` on the point-cloud output and `<base>_optical_link` on the
confidence, distance, distance-noise, amplitude, raw-amplitude, gray, RGB,
unit-vector and extrinsics outputs, and all headers published in one
iteration carry the same timestamp. -/
theorem frame_id_assignment : ∀ (base : String) (mask : Nat) (thresh : ℚ)
    (s : RunState) (e : CycleEnv),
    ((runCycle (RunCfg.mk mask thresh (onInitFrameId base)
        (onInitOpticalFrameId base)) s e).2.all (headerFrameOk base)
      = true) ∧
    uniformStamps ((runCycle (RunCfg.mk mask thresh (onInitFrameId base)
        (onInitOpticalFrameId base)) s e).2) = true := by
  intro base mask thresh s e
  cases ha : e.acquireOk with
  | false =>
    have hrc : runCycle (RunCfg.mk mask thresh (onInitFrameId base)
        (onInitOpticalFrameId base)) s e =
        failCycle (RunCfg.mk mask thresh (onInitFrameId base)
          (onInitOpticalFrameId base)) s e := by
      simp [runCycle, ha]
    rw [hrc]
    unfold failCycle
    split <;> simp [headerFrameOk, uniformStamps, evHeader]
  | true =>
    have hrc : runCycle (RunCfg.mk mask thresh (onInitFrameId base)
        (onInitOpticalFrameId base)) s e =
        succCycle (RunCfg.mk mask thresh (onInitFrameId base)
          (onInitOpticalFrameId base)) s e := by
      simp [runCycle, ha]
    rw [hrc]
    refine ⟨succCycle_frames _ s e base rfl rfl, ?_⟩
    exact uniformStamps_of_all _ _ (succCycle_all_stamped _ s e)
